import Mathlib

/-
Shallow embedding of the analysis core of the AI-Feedback-Aggregator
repository:

 * `src/analyzer/analysis_agent.py` — class `AnalysisAgent` (text
   classification, keyword extraction, trend aggregation, anomaly
   detection, orchestration in `decide`);
 * `src/utils/ooda.py` — `OODAAgent.run`, the outer loop specialized to
   `AnalysisAgent`.

Python strings are modelled as Lean `String`s whose character-level
operations (`lower`, substring search, `\b\w+\b` tokenization) work on the
underlying `List Char`, so that every definition evaluates by kernel
reduction.  pandas DataFrames are modelled as lists of row structures;
mutation of a frame (`df['day'] = ...`) is explicit state passing.
External libraries (TextBlob polarity, sklearn TfidfVectorizer, pandas
`to_datetime`) and caught exceptions are parameters of a `Deps` record
that every theorem quantifies over.
-/

namespace AnalysisAgent

/-- Lexicographic order on character lists; on `YYYY-MM-DD` day-key strings
this is exactly the ascending order pandas `groupby` produces (and it
coincides with chronological order). -/
def charLe : List Char → List Char → Bool
  | [], _ => true
  | _ :: _, [] => false
  | a :: as, b :: bs => if a = b then charLe as bs else decide (a < b)

/-- Order on strings via their character lists. -/
def strLe (a b : String) : Bool := charLe a.data b.data

/-- Ascending sort of key strings, as produced by a pandas `groupby` /
`pivot` on a string column. -/
def sortStrs (l : List String) : List String :=
  List.insertionSort (fun a b => strLe a b = true) l

/-- Python `str.lower()` (ASCII case folding), returning the character
list of the lowered string. -/
def lowerData (s : String) : List Char := s.data.map Char.toLower

/-- Contiguous-sublist test on character lists. -/
def isSubList (pat : List Char) : List Char → Bool
  | [] => pat.isEmpty
  | c :: cs => pat.isPrefixOf (c :: cs) || isSubList pat cs

/-- Python `pat in text`, equivalently `re.search` of a literal pattern
containing no metacharacters. -/
def containsSub (text : List Char) (pat : String) : Bool := isSubList pat.data text

/-- Models `re.search(r"(p1|p2|...)", text)` for an alternation of literal
words: some alternative occurs in `text`. -/
def matchesAny (text : List Char) (pats : List String) : Bool :=
  pats.any (fun p => containsSub text p)

/-- Fixed positive word list of the sentiment fallback
(analysis_agent.py line 252). -/
def positive_words : List String :=
  ["good", "great", "excellent", "amazing", "love", "like"]

/-- Fixed negative word list of the sentiment fallback (line 253). -/
def negative_words : List String :=
  ["bad", "poor", "terrible", "awful", "hate", "dislike"]

/-- Embeds `AnalysisAgent.analyze_sentiment` (lines 248-279).  `nlp_available`
selects the TextBlob branch; `polarity` models the external
`TextBlob(text).sentiment.polarity` call, with `none` standing for a raised
exception (caught at lines 277-279, default "neutral"). -/
def analyze_sentiment (nlp_available : Bool) (polarity : String → Option ℚ)
    (text : String) : String :=
  if nlp_available then
    match polarity text with
    | some p =>
        if (1 : ℚ)/10 < p then "positive"
        else if p < -((1 : ℚ)/10) then "negative"
        else "neutral"
    | none => "neutral"
  else
    let t := lowerData text
    let pos_count := (positive_words.filter (fun w => containsSub t w)).length
    let neg_count := (negative_words.filter (fun w => containsSub t w)).length
    if neg_count < pos_count then "positive"
    else if pos_count < neg_count then "negative"
    else "neutral"

/-- Alternatives of the bug regex of `categorize_feedback` (line 306). -/
def bug_patterns : List String :=
  ["bug", "error", "crash", "issue", "not working", "broken", "fails", "failure"]

/-- Alternatives of the feature-request regex (line 308). -/
def feature_patterns : List String :=
  ["feature", "add", "can you make", "wishlist", "would be nice", "please include"]

/-- Alternatives of the ux-issue regex (line 310). -/
def ux_patterns : List String :=
  ["slow", "bad ux", "confusing", "difficult", "hard to use", "complicated"]

/-- Alternatives of the positive-feedback regex (line 312). -/
def praise_patterns : List String :=
  ["great", "love", "awesome", "happy", "excellent", "amazing", "good"]

/-- Embeds `AnalysisAgent.categorize_feedback` (lines 302-315): first matching
regex wins, in the fixed order bug, feature_request, ux_issue,
positive_feedback, other. -/
def categorize_feedback (text : String) : String :=
  let t := lowerData text
  if matchesAny t bug_patterns then "bug"
  else if matchesAny t feature_patterns then "feature_request"
  else if matchesAny t ux_patterns then "ux_issue"
  else if matchesAny t praise_patterns then "positive_feedback"
  else "other"

/-- Alternatives of the urgent-term regex of `determine_urgency`
(line 325). -/
def urgent_patterns : List String :=
  ["crash", "urgent", "critical", "emergency", "severe", "blocked"]

/-- Embeds `AnalysisAgent.determine_urgency` (lines 317-332), a function of the
row's text, sentiment and category columns. -/
def determine_urgency (text sentiment category : String) : String :=
  let t := lowerData text
  if category = "bug" ∧ (matchesAny t urgent_patterns = true ∨ sentiment = "negative")
  then "high"
  else if (category = "bug" ∨ category = "ux_issue") ∧ sentiment = "negative"
  then "medium"
  else "low"

/-- Stopword set of the keyword-frequency fallback (line 289). -/
def common_words : List String :=
  ["the", "a", "an", "and", "or", "but", "is", "are", "was", "were"]

/-- A regex word character (`\w`): alphanumeric or underscore. -/
def wordChar (c : Char) : Bool := c.isAlphanum || c = '_'

/-- Models `re.findall(r"\b\w+\b", s)` on a character list: the maximal runs of
word characters, in order. -/
def tokenize (cs : List Char) : List String :=
  let step := fun (st : List String × List Char) (c : Char) =>
    if wordChar c then (st.1, st.2 ++ [c])
    else if st.2.isEmpty then (st.1, ([] : List Char))
    else (st.1 ++ [String.mk st.2], [])
  let fin := cs.foldl step ([], [])
  if fin.2.isEmpty then fin.1 else fin.1 ++ [String.mk fin.2]

/-- Models joining the texts with single spaces, `' '.join(texts)`. -/
def joinSpace : List String → String
  | [] => ""
  | [t] => t
  | t :: ts => t ++ " " ++ joinSpace ts

/-- Keys of `collections.Counter(ws).most_common(n)`: the distinct words
ordered by descending count, ties in first-occurrence order (`Counter`
preserves insertion order and Python's sort is stable; Lean's
`insertionSort` is likewise stable). -/
def most_common (ws : List String) (n : Nat) : List String :=
  (List.insertionSort (fun a b => ws.count b ≤ ws.count a) ws.eraseDups).take n

/-- The small-batch frequency fallback of `extract_keywords`
(lines 284-291): join the texts, lowercase, tokenize on word boundaries,
drop stopwords and tokens of length at most 2, return the `top_n` most
frequent tokens. -/
def freqKeywords (texts : List String) (top_n : Nat) : List String :=
  let words := tokenize (lowerData (joinSpace texts))
  most_common
    (words.filter (fun w => !(common_words.contains w) && decide (2 < w.length)))
    top_n

/-- Embeds `AnalysisAgent.extract_keywords` (lines 281-300).  `tfidf` models the
external sklearn pipeline `TfidfVectorizer(stop_words='english',
max_features=top_n).fit_transform` + `get_feature_names_out().tolist()`:
`.ok` is its returned vocabulary, `.error` a raised exception, caught at
lines 298-300 with result `[]`. -/
def extract_keywords (tfidf : List String → Except String (List String))
    (texts : List String) (top_n : Nat) : List String :=
  if texts.length < 3 then freqKeywords texts top_n
  else
    match tfidf texts with
    | Except.ok features => features
    | Except.error _ => []

/-- A parsed pandas timestamp, reduced to the two pieces the analyzer
reads: the calendar day key (`ts.dt.date.astype(str)`, a `YYYY-MM-DD`
string) and the remaining time of day used by `isoformat`. -/
structure Timestamp where
  day : String
  tod : String
deriving DecidableEq

/-- Models `pandas.Timestamp.isoformat()`. -/
def isoformat (t : Timestamp) : String := t.day ++ "T" ++ t.tod

/-- One element of the incoming `cleaned_data` batch: a mapping with the
optional keys `text`, `timestamp`, `platform` (`none` = key absent).
Further passthrough keys are not modelled. -/
structure RawItem where
  text : Option String
  timestamp : Option String
  platform : Option String
deriving DecidableEq

/-- A row of the oriented DataFrame, before classification.  `platform`
is `none` when the cell is NaN (a mixed column in which this record lacked
the key). -/
structure ORow where
  text : String
  timestamp : Timestamp
  platform : Option String
deriving DecidableEq

/-- A classified row: an `ORow` plus the `sentiment`, `category`,
`urgency` columns added in `decide` and the `day` column added (by
mutating the frame) in `detect_trends` — `none` until that point. -/
structure Row where
  text : String
  timestamp : Timestamp
  platform : Option String
  sentiment : String
  category : String
  urgency : String
  day : Option String
deriving DecidableEq

/-- External dependencies and caught-exception outcomes of one analysis
run:

 * `nlp_available`, `polarity` — see `analyze_sentiment`;
 * `parse` — `pd.to_datetime(value, errors='coerce')` on one cell,
   `none` standing for NaT;
 * `tfidf` — see `extract_keywords`;
 * `trendsFail` / `anomFail` / `bodyFail` — `true` when an exception is
   raised inside the `try` of `detect_trends` (caught at lines 370-372) /
   `detect_anomalies` (lines 425-427) / the body of `decide`
   (lines 128-130).

Theorems quantify over a `Deps`, so they hold for every behaviour of the
external libraries and every failure configuration. -/
structure Deps where
  nlp_available : Bool
  polarity : String → Option ℚ
  parse : String → Option Timestamp
  tfidf : List String → Except String (List String)
  trendsFail : Bool
  anomFail : Bool
  bodyFail : Bool

/-- Embeds `AnalysisAgent.orient` (lines 40-78).  `now` is the value of
`datetime.now()` / `pd.Timestamp.now()` during the run.  A column missing
from the whole frame is filled with its default ("No text available" /
current time / "Unknown").  In a mixed column, a missing `text` cell
becomes the string "nan" (NaN rendered by `astype(str)`), a missing
`platform` cell stays NaN (`none`), and a missing or unparseable
`timestamp` cell becomes `now` (NaT, then `fillna(pd.Timestamp.now())`). -/
def orient (d : Deps) (now : Timestamp) (batch : List RawItem) : List ORow :=
  let textColMissing := batch.all (fun i => i.text.isNone)
  let platformColMissing := batch.all (fun i => i.platform.isNone)
  batch.map (fun i =>
    { text := if textColMissing then "No text available" else i.text.getD "nan"
      timestamp := (i.timestamp.bind d.parse).getD now
      platform := if platformColMissing then some "Unknown" else i.platform })

/-- Lines 87-94 of `decide`: the three `apply` calls adding the
`sentiment`, `category` and `urgency` columns to a row. -/
def classifyRow (d : Deps) (o : ORow) : Row :=
  let s := analyze_sentiment d.nlp_available d.polarity o.text
  let c := categorize_feedback o.text
  { text := o.text, timestamp := o.timestamp, platform := o.platform,
    sentiment := s, category := c,
    urgency := determine_urgency o.text s c, day := none }

/-- The day key of a row, `df['timestamp'].dt.date.astype(str)`. -/
def dayOf (r : Row) : String := r.timestamp.day

/-- The distinct key strings of a column in ascending order: the index a
pandas `groupby` on that column produces. -/
def groupKeys (keys : List String) : List String := sortStrs keys.dedup

/-- Models `df.groupby('day').size().reset_index(name='count')`: one
`(day, count)` row per distinct day, ascending by day string. -/
def dailyCounts (keys : List String) : List (String × Nat) :=
  (groupKeys keys).map (fun d => (d, keys.count d))

/-- Models `df.groupby(['day', col]).size()` pivoted on `col`, `fillna(0)`:
for each day (ascending) and each distinct value of `col` (ascending), the
number of rows with that day and value — 0 when the combination is
absent. -/
def pivotBy (rows : List Row) (col : Row → String) :
    List (String × List (String × Nat)) :=
  let days := groupKeys (rows.map dayOf)
  let cols := groupKeys (rows.map col)
  days.map (fun d =>
    (d, cols.map (fun c => (c, rows.countP (fun r => dayOf r == d && col r == c)))))

/-- The `time_trends` dictionary built by `detect_trends`
(lines 362-366). -/
structure TimeTrends where
  daily_count : List (String × Nat)
  sentiment_trend : List (String × List (String × Nat))
  category_trend : List (String × List (String × Nat))
deriving DecidableEq

/-- Embeds `AnalysisAgent.detect_trends` (lines 334-372).  Returns the trends
(`none` models the `[]` returned for an empty frame) TOGETHER with the
DataFrame as the call leaves it: line 348 (`df['day'] = ...`) mutates the
caller's frame by adding the `day` column before grouping. -/
def detect_trends (rows : List Row) : Option TimeTrends × List Row :=
  if rows.isEmpty then (none, rows)
  else
    let rows2 := rows.map (fun r => { r with day := some r.timestamp.day })
    let keys := rows2.map dayOf
    (some { daily_count := dailyCounts keys
            sentiment_trend := pivotBy rows2 (fun r => r.sentiment)
            category_trend := pivotBy rows2 (fun r => r.category) },
     rows2)

/-- The sum of the integer images of a list of counts. -/
def intSum (counts : List Nat) : Int := (counts.map (fun x : Nat => (x : Int))).sum

/-- The test `count > mean + 2 * std` applied by `detect_anomalies` to one
day's count `c`, where `mean`/`std` are the mean and the pandas SAMPLE
standard deviation (`ddof = 1`) of the day counts, `std` taken as 0 when
only one day is present (lines 396-401, 410-413).

Stated in exact integer arithmetic: with `n` days and total `s`,
`c > s/n` iff `n*c > s`, and for `n ≥ 2`, since the variance is
`Σ(x - s/n)^2 / (n-1) = Σ(n*x - s)^2 / (n^2*(n-1))` and both sides of
`(c - s/n)^2 > 4*var` scale by `n^2*(n-1) > 0`, the threshold test is
`(n-1)*(n*c - s)^2 > 4*Σ(n*x - s)^2`.  The theorem
`anomalousB_iff_mean_std` below proves this equivalent to the source's
real-number comparison. -/
def anomalousB (counts : List Nat) (c : Nat) : Bool :=
  let n : Int := counts.length
  let s : Int := intSum counts
  if counts.length ≤ 1 then decide (s < n * c)
  else
    decide (s < n * c) &&
      decide (4 * ((counts.map (fun x : Nat => (n * x - s) ^ 2)).sum) <
        (n - 1) * (n * c - s) ^ 2)

/-- Models `day_counts[day_counts > mean + 2*std]` as a day → count mapping in
ascending day order (lines 396-404). -/
def anomalousDays (keys : List String) : List (String × Nat) :=
  let pairs := dailyCounts keys
  let counts := pairs.map (fun p => p.2)
  pairs.filter (fun p => anomalousB counts p.2)

/-- The two anomaly maps returned by `detect_anomalies`
(lines 420-423). -/
structure Anomalies where
  volume_anomalies : List (String × Nat)
  negative_sentiment_anomalies : List (String × Nat)
deriving DecidableEq

/-- Embeds `AnalysisAgent.detect_anomalies` (lines 374-427); `none` models the
`{}` returned for an empty frame or when fewer than three distinct days
are present (line 393).  The negative-sentiment pass (lines 407-418) runs
whenever at least one negative row exists, with no day-count minimum of
its own. -/
def detect_anomalies (rows : List Row) : Option Anomalies :=
  if rows.isEmpty then none
  else
    let keys := rows.map dayOf
    if (groupKeys keys).length < 3 then none
    else
      let negative := rows.filter (fun r => r.sentiment == "negative")
      some { volume_anomalies := anomalousDays keys
             negative_sentiment_anomalies :=
               if negative.isEmpty then [] else anomalousDays (negative.map dayOf) }

/-- A record of `feedback_data` after `dataframe_to_serializable`:
timestamps rendered with `isoformat`, every other column (including the
mutated-in `day` column, when present) passed through. -/
structure SRow where
  text : String
  timestamp : String
  platform : Option String
  sentiment : String
  category : String
  urgency : String
  day : Option String
deriving DecidableEq

/-- Embeds `AnalysisAgent.dataframe_to_serializable` (lines 138-151). -/
def dataframe_to_serializable (rows : List Row) : List SRow :=
  rows.map (fun r =>
    { text := r.text, timestamp := isoformat r.timestamp,
      platform := r.platform, sentiment := r.sentiment,
      category := r.category, urgency := r.urgency, day := r.day })

/-- Models `series.value_counts().to_dict()`: the distinct values with their
counts, in descending count order. -/
def value_counts (vals : List String) : List (String × Nat) :=
  (List.insertionSort (fun a b => vals.count b ≤ vals.count a) vals.eraseDups).map
    (fun v => (v, vals.count v))

/-- The JSON value stored under `time_trends` in the result: either the
literal empty LIST `[]` (written by `create_empty_analysis_result` at line
244, and by `decide` when `detect_trends` failed) or the serialized trends
mapping.  `make_time_trends_serializable` (lines 153-190) is the identity
on the already string-keyed, integer-valued trends. -/
inductive TimeTrendsValue where
  | emptyList : TimeTrendsValue
  | mapping : TimeTrends → TimeTrendsValue
deriving DecidableEq

/-- Whether the `time_trends` value is a mapping (a JSON object), as the
spec's data model requires, rather than the empty list. -/
def TimeTrendsValue.isMapping : TimeTrendsValue → Bool
  | TimeTrendsValue.emptyList => false
  | TimeTrendsValue.mapping _ => true

/-- The `analysis_result` dictionary assembled by `decide`
(lines 116-123).  `anomalies = none` models the empty dict `{}`
(`make_anomalies_serializable` is the identity on the string-keyed,
integer-valued maps and sends `{}` to `{}`). -/
structure AnalysisResult where
  feedback_data : List SRow
  sentiment_summary : List (String × Nat)
  top_issues : List (String × Nat)
  trend_keywords : List String
  time_trends : TimeTrendsValue
  anomalies : Option Anomalies
deriving DecidableEq

/-- Embeds `AnalysisAgent.create_empty_analysis_result` (lines 237-246). -/
def create_empty_analysis_result : AnalysisResult :=
  { feedback_data := [], sentiment_summary := [], top_issues := [],
    trend_keywords := [], time_trends := TimeTrendsValue.emptyList,
    anomalies := none }

/-- Embeds `AnalysisAgent.decide` (lines 80-130).  The `Fail` flags of `d` select
the `except` branch of the corresponding `try`; every such branch
degrades a sub-result instead of raising. -/
def decide (d : Deps) (rows : List ORow) : AnalysisResult :=
  if rows.isEmpty then create_empty_analysis_result
  else if d.bodyFail then create_empty_analysis_result
  else
    let df := rows.map (classifyRow d)
    let trend_keywords := extract_keywords d.tfidf (df.map (fun r => r.text)) 10
    let trended := if d.trendsFail then ((none : Option TimeTrends), df)
                   else detect_trends df
    let df2 := trended.2
    let anomalies := if d.anomFail then none else detect_anomalies df2
    { feedback_data := dataframe_to_serializable df2,
      sentiment_summary := value_counts (df2.map (fun r => r.sentiment)),
      top_issues := value_counts (df2.map (fun r => r.category)),
      trend_keywords := trend_keywords,
      time_trends :=
        match trended.1 with
        | some t => TimeTrendsValue.mapping t
        | none => TimeTrendsValue.emptyList,
      anomalies := anomalies }

/-- The shapes an input to `OODAAgent.run` can take, as distinguished by
`run` (ooda.py line 25) and `AnalysisAgent.observe` (lines 24-38):

 * `falsy` — a falsy `input_data` (`None`, `{}`, `[]`, so in particular a
   bare empty batch);
 * `wrongType` — a truthy non-mapping, on which `observe`'s
   `cleaned_data.get("data", {})` raises (caught by `run`);
 * `noCleanedData` — a truthy mapping without a non-empty
   `data.cleaned_data` entry, for which `observe` returns `[]`;
 * `withBatch items` — `{"data": {"cleaned_data": items}}`. -/
inductive RunInput where
  | falsy : RunInput
  | wrongType : RunInput
  | noCleanedData : RunInput
  | withBatch : List RawItem → RunInput

/-- The value under the `data` key of `run`'s result: the bare list `[]`
of the warning/error branches, or an analysis result. -/
inductive RunData where
  | list : List SRow → RunData
  | result : AnalysisResult → RunData
deriving DecidableEq

/-- Whether a `run` data payload is an AnalysisResult mapping at all. -/
def RunData.isResult : RunData → Bool
  | RunData.list _ => false
  | RunData.result _ => true

/-- The dictionary returned by `OODAAgent.run` (status plus data
payload). -/
structure RunOutput where
  status : String
  data : RunData
deriving DecidableEq

/-- Embeds `OODAAgent.run` (ooda.py lines 21-40) specialized to `AnalysisAgent`:
falsy input short-circuits with status "warning" and data `[]`; a raised
exception anywhere in the loop is caught and reported as status "error"
with data `[]` (reachable e.g. via `observe` on a non-mapping); otherwise
observe/orient/decide/act run in sequence (`act` is the identity on the
result) under status "success". -/
def run (d : Deps) (now : Timestamp) : RunInput → RunOutput
  | RunInput.falsy => { status := "warning", data := RunData.list [] }
  | RunInput.wrongType => { status := "error", data := RunData.list [] }
  | RunInput.noCleanedData =>
      { status := "success",
        data := RunData.result (AnalysisAgent.decide d (orient d now [])) }
  | RunInput.withBatch items =>
      { status := "success",
        data := RunData.result (AnalysisAgent.decide d (orient d now items)) }

/-- The category rule as worded in spec section 4.1 ("case-insensitive
regex matching, evaluated in strict priority order (first match wins, no
fallthrough)"), written from the spec's own alternation lists for
comparison with `categorize_feedback`. -/
def specCategory (text : String) : String :=
  let t := lowerData text
  if matchesAny t ["bug", "error", "crash", "issue", "not working", "broken",
      "fails", "failure"] then "bug"
  else if matchesAny t ["feature", "add", "can you make", "wishlist",
      "would be nice", "please include"] then "feature_request"
  else if matchesAny t ["slow", "bad ux", "confusing", "difficult",
      "hard to use", "complicated"] then "ux_issue"
  else if matchesAny t ["great", "love", "awesome", "happy", "excellent",
      "amazing", "good"] then "positive_feedback"
  else "other"

/-- The urgency rule as worded in spec section 4.1: high iff category is
bug and (urgent term or negative sentiment); medium iff category in
{bug, ux_issue}, negative sentiment, and not already high; else low.
Written from the spec for comparison with `determine_urgency`. -/
def specUrgency (text sentiment category : String) : String :=
  let t := lowerData text
  if category = "bug" ∧
      (matchesAny t ["crash", "urgent", "critical", "emergency", "severe",
        "blocked"] = true ∨ sentiment = "negative")
  then "high"
  else if (category = "bug" ∨ category = "ux_issue") ∧ sentiment = "negative"
  then "medium"
  else "low"

/-- A concrete stand-in for `pd.to_datetime` used only to instantiate the
quantified `parse` dependency in witnesses: accepts strings of the shape
`YYYY-MM-DD HH:MM:SS`. -/
def defaultParse (s : String) : Option Timestamp :=
  if s.length = 19 then
    some { day := String.mk (s.data.take 10), tod := String.mk (s.data.drop 11) }
  else none

/-- A concrete dependency record for witnesses: wordlist sentiment
fallback, no vectorizer, no internal failures. -/
def defaultDeps : Deps :=
  { nlp_available := false
    polarity := fun _ => none
    parse := defaultParse
    tfidf := fun _ => Except.error "sklearn unavailable"
    trendsFail := false
    anomFail := false
    bodyFail := false }

/-- A fixed current time for witnesses. -/
def defaultNow : Timestamp := { day := "2024-06-01", tod := "00:00:00" }

/-- Models `Series.mean()` of the day counts (lines 397, 410), over ℚ. -/
def meanQ (counts : List Nat) : ℚ :=
  (counts.map (fun x : Nat => (x : ℚ))).sum / counts.length

/-- The square of `Series.std()` (lines 398, 411): the pandas sample
variance (`ddof = 1`) of the day counts, over ℚ. -/
def sampleVarQ (counts : List Nat) : ℚ :=
  (counts.map (fun x : Nat => ((x : ℚ) - meanQ counts) ^ 2)).sum /
    ((counts.length : ℚ) - 1)

/-- Projection used by the C2 counterexample: the `time_trends` field of a
result payload, when the payload is a result at all. -/
def resultTimeTrends : RunData → Option TimeTrendsValue
  | RunData.list _ => none
  | RunData.result r => some r.time_trends

/-- Every record of a result's `feedback_data` carries labels from the
three classifier domains. -/
def resultIsWellLabeled (r : AnalysisResult) : Prop :=
  ∀ sr ∈ r.feedback_data,
    sr.sentiment ∈ ["positive", "negative", "neutral"] ∧
    sr.category ∈ ["bug", "feature_request", "ux_issue", "positive_feedback", "other"] ∧
    sr.urgency ∈ ["high", "medium", "low"]

/-- A concrete classified row for witnesses, varying in day and
sentiment. -/
def mkRow (day sentiment : String) : Row :=
  { text := "x", timestamp := { day := day, tod := "00:00:00" },
    platform := some "Web", sentiment := sentiment, category := "other",
    urgency := "low", day := none }

/-- A concrete two-item batch with fully specified parseable timestamps,
used by the C8 witness. -/
def batchC8 : List RawItem :=
  [{ text := some "great app", timestamp := some "2024-03-01 10:00:00",
     platform := some "Web" },
   { text := some "bug crash on login", timestamp := some "2024-03-02 11:30:00",
     platform := some "iOS" }]

/-- A concrete batch realizing the spec's anomaly example: per-day counts
[2, 3, 2, 3, 20] over five consecutive days, all neutral. -/
def batchC3 : List Row :=
  List.replicate 2 (mkRow "2024-01-01" "neutral") ++
  List.replicate 3 (mkRow "2024-01-02" "neutral") ++
  List.replicate 2 (mkRow "2024-01-03" "neutral") ++
  List.replicate 3 (mkRow "2024-01-04" "neutral") ++
  List.replicate 20 (mkRow "2024-01-05" "neutral")

end AnalysisAgent

namespace AnalysisAgent

/-- Helper: casting the rational sum of a list of naturals to ℝ sums the
real images. -/
theorem natCast_sum_q (l : List Nat) :
    (((l.map (fun x : Nat => (x : ℚ))).sum : ℚ) : ℝ) =
      (l.map (fun x : Nat => (x : ℝ))).sum := by
  induction l with
  | nil => simp
  | cons a t ih =>
    rw [List.map_cons, List.sum_cons, List.map_cons, List.sum_cons, Rat.cast_add, ih,
      Rat.cast_natCast]

/-- Helper: casting `intSum` to ℝ sums the real images. -/
theorem intSum_cast (l : List Nat) :
    ((intSum l : Int) : ℝ) = (l.map (fun x : Nat => (x : ℝ))).sum := by
  unfold intSum
  induction l with
  | nil => simp
  | cons a t ih =>
    rw [List.map_cons, List.sum_cons, List.map_cons, List.sum_cons, Int.cast_add, ih,
      Int.cast_natCast]

/-- Helper: casting a sum of squared rational deviations to ℝ. -/
theorem sq_sum_cast (l : List Nat) (m : ℚ) :
    (((l.map (fun x : Nat => ((x : ℚ) - m) ^ 2)).sum : ℚ) : ℝ) =
      (l.map (fun x : Nat => ((x : ℝ) - (m : ℝ)) ^ 2)).sum := by
  induction l with
  | nil => simp
  | cons a t ih =>
    rw [List.map_cons, List.sum_cons, List.map_cons, List.sum_cons, Rat.cast_add, ih]
    rw [Rat.cast_pow, Rat.cast_sub, Rat.cast_natCast]

/-- Helper: casting a sum of squared integer deviations to ℝ. -/
theorem devsq_sum_cast (l : List Nat) (n s : Int) :
    (((l.map (fun x : Nat => (n * x - s) ^ 2)).sum : Int) : ℝ) =
      (l.map (fun x : Nat => ((n : ℝ) * x - (s : ℝ)) ^ 2)).sum := by
  induction l with
  | nil => simp
  | cons a t ih =>
    rw [List.map_cons, List.sum_cons, List.map_cons, List.sum_cons, Int.cast_add, ih]
    rw [Int.cast_pow, Int.cast_sub, Int.cast_mul, Int.cast_natCast]

/-- Helper: mapped sums agree for pointwise-equal functions. -/
theorem sum_map_congr_r (l : List Nat) (f g : Nat → ℝ) (h : ∀ x, f x = g x) :
    (l.map f).sum = (l.map g).sum := by
  induction l with
  | nil => simp
  | cons a t ih => simp [h, ih]

/-- Helper: a common divisor factors out of a mapped sum. -/
theorem sum_map_div_r (l : List Nat) (f : Nat → ℝ) (b : ℝ) :
    (l.map (fun x : Nat => f x / b)).sum = (l.map f).sum / b := by
  induction l with
  | nil => simp
  | cons a t ih => simp [ih, add_div]

/-- The integer test `anomalousB` coincides with the source's
floating-point comparison `count > mean + 2 * std` read over the reals,
for at least two observed days (`std` the sample standard deviation,
the square root of `sampleVarQ`). -/
theorem anomalousB_iff_mean_std (counts : List Nat) (c : Nat)
    (hn : 2 ≤ counts.length) :
    anomalousB counts c = true ↔
      ((meanQ counts : ℚ) : ℝ) + 2 * Real.sqrt ((sampleVarQ counts : ℚ) : ℝ) <
        (c : ℝ) := by
  have hn1 : ¬ (counts.length ≤ 1) := by omega
  have hnR : (0 : ℝ) < (counts.length : ℝ) := by
    have h0 : (0 : ℕ) < counts.length := by omega
    exact_mod_cast h0
  have hnR1 : (0 : ℝ) < (counts.length : ℝ) - 1 := by
    have h0 : (1 : ℕ) < counts.length := by omega
    have h1 : (1 : ℝ) < (counts.length : ℝ) := by exact_mod_cast h0
    linarith
  have hmean : ((meanQ counts : ℚ) : ℝ) =
      (counts.map (fun x : Nat => (x : ℝ))).sum / (counts.length : ℝ) := by
    unfold meanQ
    rw [Rat.cast_div, natCast_sum_q, Rat.cast_natCast]
  have hvar : ((sampleVarQ counts : ℚ) : ℝ) =
      ((counts.map (fun x : Nat => ((counts.length : ℝ) * x -
          (counts.map (fun y : Nat => (y : ℝ))).sum) ^ 2)).sum) /
        ((counts.length : ℝ) ^ 2 * ((counts.length : ℝ) - 1)) := by
    unfold sampleVarQ
    rw [Rat.cast_div, sq_sum_cast, Rat.cast_sub, Rat.cast_natCast, Rat.cast_one]
    rw [hmean]
    have hpt : ∀ x : Nat,
        ((x : ℝ) - (counts.map (fun y : Nat => (y : ℝ))).sum / (counts.length : ℝ)) ^ 2 =
        (((counts.length : ℝ) * x - (counts.map (fun y : Nat => (y : ℝ))).sum) ^ 2) /
          ((counts.length : ℝ) ^ 2) := by
      intro x
      have hne : (counts.length : ℝ) ≠ 0 := ne_of_gt hnR
      field_simp
      ring
    rw [sum_map_congr_r _ _ _ hpt, sum_map_div_r, div_div]
  have hform : anomalousB counts c = true ↔
      (intSum counts < (counts.length : Int) * c ∧
        4 * ((counts.map (fun x : Nat => ((counts.length : Int) * x - intSum counts) ^ 2)).sum) <
          ((counts.length : Int) - 1) * ((counts.length : Int) * c - intSum counts) ^ 2) := by
    simp [anomalousB, hn1]
  have hc1 : (intSum counts < (counts.length : Int) * c) ↔
      ((counts.map (fun y : Nat => (y : ℝ))).sum < (counts.length : ℝ) * c) := by
    rw [← @Int.cast_lt ℝ _ _ _, intSum_cast, Int.cast_mul, Int.cast_natCast, Int.cast_natCast]
  have hc2 : (4 * ((counts.map (fun x : Nat => ((counts.length : Int) * x - intSum counts) ^ 2)).sum) <
      ((counts.length : Int) - 1) * ((counts.length : Int) * c - intSum counts) ^ 2) ↔
      (4 * ((counts.map (fun x : Nat => ((counts.length : ℝ) * x -
          (counts.map (fun y : Nat => (y : ℝ))).sum) ^ 2)).sum) <
        ((counts.length : ℝ) - 1) * ((counts.length : ℝ) * c -
          (counts.map (fun y : Nat => (y : ℝ))).sum) ^ 2) := by
    rw [← @Int.cast_lt ℝ _ _ _, Int.cast_mul, devsq_sum_cast, intSum_cast, Int.cast_mul,
      Int.cast_pow, Int.cast_sub, Int.cast_sub, Int.cast_mul, Int.cast_natCast,
      Int.cast_natCast, intSum_cast, Int.cast_one, Int.cast_ofNat]
  rw [hform, hmean, hvar, hc1, hc2]
  set nR : ℝ := (counts.length : ℝ) with hdefn
  set sR : ℝ := (counts.map (fun y : Nat => (y : ℝ))).sum with hdefs
  set dR : ℝ := (counts.map (fun x : Nat => (nR * x - sR) ^ 2)).sum with hdefd
  have hd0 : 0 ≤ dR := by
    rw [hdefd]
    apply List.sum_nonneg
    intro a ha
    obtain ⟨x, _, rfl⟩ := List.mem_map.mp ha
    positivity
  have hv0 : (0 : ℝ) ≤ dR / (nR ^ 2 * (nR - 1)) := by positivity
  have hexp : (((c : ℝ) - sR / nR) / 2) ^ 2 * (nR ^ 2 * (nR - 1)) =
      (nR - 1) * (nR * c - sR) ^ 2 / 4 := by
    have hne : nR ≠ 0 := ne_of_gt hnR
    field_simp
    ring
  constructor
  · rintro ⟨h1, h2⟩
    have ht : 0 < (c : ℝ) - sR / nR := by
      rw [sub_pos, div_lt_iff₀ hnR, mul_comm]
      exact h1
    have hv : dR / (nR ^ 2 * (nR - 1)) < (((c : ℝ) - sR / nR) / 2) ^ 2 := by
      rw [div_lt_iff₀ (by positivity), hexp]
      linarith
    have hsq := (Real.sqrt_lt' (by positivity : (0:ℝ) < ((c : ℝ) - sR / nR) / 2)).mpr hv
    linarith [hsq]
  · intro h
    have hs0 : 0 ≤ Real.sqrt (dR / (nR ^ 2 * (nR - 1))) := Real.sqrt_nonneg _
    have ht : 0 < (c : ℝ) - sR / nR := by linarith
    have h1 : sR < nR * (c : ℝ) := by
      rw [mul_comm, ← div_lt_iff₀ hnR]
      linarith
    refine ⟨h1, ?_⟩
    have hhalf : (0:ℝ) < ((c : ℝ) - sR / nR) / 2 := by positivity
    have hsq : Real.sqrt (dR / (nR ^ 2 * (nR - 1))) < ((c : ℝ) - sR / nR) / 2 := by
      linarith
    have hv := (Real.sqrt_lt' hhalf).mp hsq
    rw [div_lt_iff₀ (by positivity), hexp] at hv
    linarith

/-- Helper: a pattern that is a member of the list and occurs in the text
makes `matchesAny` true. -/
theorem matchesAny_of_mem {t : List Char} {p : String} {pats : List String}
    (hmem : p ∈ pats) (h : containsSub t p = true) : matchesAny t pats = true := by
  unfold matchesAny
  exact List.any_eq_true.mpr ⟨p, hmem, h⟩

/-- Helper: `analyze_sentiment` only ever returns one of the three
sentiment labels. -/
theorem analyze_sentiment_mem (b : Bool) (pol : String → Option ℚ) (t : String) :
    analyze_sentiment b pol t ∈ ["positive", "negative", "neutral"] := by
  simp only [analyze_sentiment]
  split
  · split
    · split
      · simp
      · split <;> simp
    · simp
  · split
    · simp
    · split <;> simp

/-- Helper: `categorize_feedback` only ever returns one of the five
category labels. -/
theorem categorize_feedback_mem (t : String) :
    categorize_feedback t ∈
      ["bug", "feature_request", "ux_issue", "positive_feedback", "other"] := by
  simp only [categorize_feedback]
  split
  · simp
  · split
    · simp
    · split
      · simp
      · split <;> simp

/-- Helper: `determine_urgency` only ever returns one of the three urgency
labels. -/
theorem determine_urgency_mem (t s c : String) :
    determine_urgency t s c ∈ ["high", "medium", "low"] := by
  simp only [determine_urgency]
  split
  · simp
  · split <;> simp

/-- Claim C4: for every text the category classifier returns exactly one
of the five values, it agrees with the spec's first-match priority rule,
and a text containing both "bug" and "love" (in lowercase form) is
categorized as "bug" — priority 1 beats priority 4. -/
theorem c4_category_priority (text : String) :
    categorize_feedback text ∈
      ["bug", "feature_request", "ux_issue", "positive_feedback", "other"] ∧
    categorize_feedback text = specCategory text ∧
    (containsSub (lowerData text) "bug" = true →
      containsSub (lowerData text) "love" = true →
      categorize_feedback text = "bug") := by
  refine ⟨categorize_feedback_mem text, rfl, fun hbug _ => ?_⟩
  have h : matchesAny (lowerData text) bug_patterns = true :=
    matchesAny_of_mem (by simp [bug_patterns]) hbug
  unfold categorize_feedback
  simp [h]

/-- Claim C4, witness: a concrete text containing both "bug" and "love"
is categorized as "bug". -/
theorem c4_witness :
    categorize_feedback "I love this app but there is a bug on login" = "bug" :=
  (c4_category_priority "I love this app but there is a bug on login").2.2
    (by decide) (by decide)

/-- Claim C5: urgency is one of the three labels, agrees with the spec's
rule (high: bug and (urgent term or negative); medium: bug or ux_issue,
negative, not already high; else low), and in particular every item with
category "bug" and sentiment "negative" is "high" regardless of its
text. -/
theorem c5_urgency_rule (text sentiment category : String) :
    determine_urgency text sentiment category ∈ ["high", "medium", "low"] ∧
    determine_urgency text sentiment category = specUrgency text sentiment category ∧
    (category = "bug" → sentiment = "negative" →
      determine_urgency text sentiment category = "high") := by
  refine ⟨determine_urgency_mem text sentiment category, rfl, fun hc hs => ?_⟩
  unfold determine_urgency
  rw [if_pos ⟨hc, Or.inr hs⟩]

/-- Claim C5, witness: category "bug" with sentiment "negative" is "high"
even for the text "minor typo", which matches no urgent keyword. -/
theorem c5_witness : determine_urgency "minor typo" "negative" "bug" = "high" :=
  (c5_urgency_rule "minor typo" "negative" "bug").2.2 rfl rfl

/-- Claim C6: the keyword extractor selects its branch by batch size at
the boundary 3 — fewer than 3 texts use the frequency fallback
`freqKeywords` (join, lowercase, tokenize on word boundaries, drop the
fixed stopwords and tokens of length at most 2, take the `top_n` most
frequent); 3 or more texts use the TF-IDF vectorized path, whose failure
(and only whose failure) yields `[]`. -/
theorem c6_keyword_branching (tfidf : List String → Except String (List String))
    (texts : List String) (top_n : Nat) :
    (texts.length < 3 → extract_keywords tfidf texts top_n = freqKeywords texts top_n) ∧
    (3 ≤ texts.length →
      extract_keywords tfidf texts top_n =
        match tfidf texts with
        | Except.ok features => features
        | Except.error _ => []) := by
  constructor
  · intro h
    unfold extract_keywords
    rw [if_pos h]
  · intro h
    unfold extract_keywords
    rw [if_neg (by omega)]

/-- Claim C6, witness: a batch of size 2 takes the frequency fallback
(here computed concretely) and a batch of size 5 returns the vectorizer's
vocabulary. -/
theorem c6_witness :
    extract_keywords (fun _ => Except.ok ["app", "login"])
        ["the bug is bad", "love the app"] 10 = ["bug", "bad", "love", "app"] ∧
    extract_keywords (fun _ => Except.ok ["app", "login"])
        ["a", "b", "c", "d", "e"] 10 = ["app", "login"] := by
  constructor
  · rw [(c6_keyword_branching (fun _ => Except.ok ["app", "login"])
      ["the bug is bad", "love the app"] 10).1 (by decide)]
    decide
  · exact (c6_keyword_branching (fun _ => Except.ok ["app", "login"])
      ["a", "b", "c", "d", "e"] 10).2 (by decide)

/-- Claim C2, counterexample: on the empty batch the analysis returns the
canonical empty result whose `time_trends` field is the empty LIST
(`"time_trends": []`, line 244), not the empty form of a mapping — so the
claim's "time_trends is a mapping" is false on the code. -/
theorem c2_counterexample :
    resultTimeTrends (run defaultDeps defaultNow (RunInput.withBatch [])).data =
      some TimeTrendsValue.emptyList ∧
    TimeTrendsValue.isMapping TimeTrendsValue.emptyList = false :=
  ⟨rfl, rfl⟩

/-- Claim C2 (amended): for an empty batch (and for a malformed input
lacking `data.cleaned_data`), the analysis returns exactly the canonical
empty AnalysisResult — feedback_data `[]`, sentiment_summary `{}`,
top_issues `{}`, trend_keywords `[]`, anomalies `{}`, and time_trends the
empty LIST `[]` (not a mapping). -/
theorem c2_empty_input_canonical (d : Deps) (now : Timestamp) :
    run d now (RunInput.withBatch []) =
      { status := "success", data := RunData.result create_empty_analysis_result } ∧
    run d now RunInput.noCleanedData =
      { status := "success", data := RunData.result create_empty_analysis_result } ∧
    create_empty_analysis_result =
      { feedback_data := [], sentiment_summary := [], top_issues := [],
        trend_keywords := [], time_trends := TimeTrendsValue.emptyList,
        anomalies := none } :=
  ⟨rfl, rfl, rfl⟩

/-- Helper: `detect_trends` returns the rows it was given, each with its
classification labels unchanged (only the `day` column is added). -/
theorem detect_trends_snd_labels (df : List Row) (r : Row)
    (h : r ∈ (detect_trends df).2) :
    ∃ r0 ∈ df, r.sentiment = r0.sentiment ∧ r.category = r0.category ∧
      r.urgency = r0.urgency := by
  unfold detect_trends at h
  split at h
  · exact ⟨r, h, rfl, rfl, rfl⟩
  · dsimp only at h
    obtain ⟨r0, hr0, rfl⟩ := List.mem_map.mp h
    exact ⟨r0, hr0, rfl, rfl, rfl⟩

/-- Helper: every result `decide` can produce is well labeled, under every
dependency behaviour and failure configuration. -/
theorem decide_wellLabeled (d : Deps) (rows : List ORow) :
    resultIsWellLabeled (AnalysisAgent.decide d rows) := by
  intro sr hsr
  unfold AnalysisAgent.decide at hsr
  split at hsr
  · simp [create_empty_analysis_result] at hsr
  · split at hsr
    · simp [create_empty_analysis_result] at hsr
    · dsimp only at hsr
      unfold dataframe_to_serializable at hsr
      obtain ⟨r, hr, rfl⟩ := List.mem_map.mp hsr
      have hlab : ∃ r0 ∈ rows.map (classifyRow d),
          r.sentiment = r0.sentiment ∧ r.category = r0.category ∧
            r.urgency = r0.urgency := by
        by_cases ht : d.trendsFail
        · rw [if_pos ht] at hr
          exact ⟨r, hr, rfl, rfl, rfl⟩
        · rw [if_neg ht] at hr
          exact detect_trends_snd_labels _ r hr
      obtain ⟨r0, hr0, hs, hc, hu⟩ := hlab
      obtain ⟨o, _, rfl⟩ := List.mem_map.mp hr0
      refine ⟨?_, ?_, ?_⟩
      · simpa [hs, classifyRow] using
          analyze_sentiment_mem d.nlp_available d.polarity o.text
      · simpa [hc, classifyRow] using categorize_feedback_mem o.text
      · simpa [hu, classifyRow] using
          determine_urgency_mem o.text
            (analyze_sentiment d.nlp_available d.polarity o.text)
            (categorize_feedback o.text)

/-- Claim C1, counterexample: a falsy input batch (in particular a bare
empty batch handed to `run`) produces `{"status": "warning",
"message": ..., "data": []}` — the data payload is a bare empty list, not
a value matching the AnalysisResult schema, so "for every input ... a
result matching the AnalysisResult schema" fails. -/
theorem c1_counterexample :
    run defaultDeps defaultNow RunInput.falsy =
      { status := "warning", data := RunData.list [] } ∧
    RunData.isResult (run defaultDeps defaultNow RunInput.falsy).data = false :=
  ⟨rfl, rfl⟩

/-- Claim C1 (amended): `run` never lets an exception escape — for every
input shape, every external-library behaviour and every internal-failure
configuration it returns normally, with either a degraded warning/error
output whose data payload is the empty list (falsy or wrongly-typed
input), or a success whose payload is an AnalysisResult (possibly
degraded) in which every feedback record carries valid
sentiment/category/urgency labels. -/
theorem c1_run_never_raises (d : Deps) (now : Timestamp) (i : RunInput) :
    ((run d now i).data = RunData.list [] ∧
      ((run d now i).status = "warning" ∨ (run d now i).status = "error")) ∨
    (∃ r, (run d now i).data = RunData.result r ∧
      (run d now i).status = "success" ∧ resultIsWellLabeled r) := by
  cases i with
  | falsy => exact Or.inl ⟨rfl, Or.inl rfl⟩
  | wrongType => exact Or.inl ⟨rfl, Or.inr rfl⟩
  | noCleanedData => exact Or.inr ⟨_, rfl, rfl, decide_wellLabeled d _⟩
  | withBatch items => exact Or.inr ⟨_, rfl, rfl, decide_wellLabeled d _⟩

/-- Helper: summing the per-day group sizes over the distinct days gives
back the number of keys (each key lands in exactly one group). -/
theorem sum_dailyCounts (keys : List String) :
    ((dailyCounts keys).map (fun p => p.2)).sum = keys.length := by
  unfold dailyCounts groupKeys
  rw [List.map_map]
  have hperm : (sortStrs keys.dedup).Perm keys.dedup := by
    unfold sortStrs
    exact List.perm_insertionSort _ _
  rw [(hperm.map ((fun p : String × Nat => p.2) ∘ fun d => (d, keys.count d))).sum_eq]
  simpa [Function.comp] using List.sum_map_count_dedup_eq_length keys

/-- Claim C7: for every non-empty batch on which trend aggregation runs,
the counts in the `daily_count` rows of the produced trends sum to the
number of rows in the batch — every row, including those whose timestamp
was coerced, is counted in exactly one day bucket. -/
theorem c7_daily_count_total (rows : List Row) (h : rows ≠ []) :
    ∃ t, (detect_trends rows).1 = some t ∧
      (t.daily_count.map (fun p => p.2)).sum = rows.length := by
  cases rows with
  | nil => exact absurd rfl h
  | cons r rs =>
    refine ⟨_, rfl, ?_⟩
    show ((dailyCounts (((r :: rs).map fun x =>
        { x with day := some x.timestamp.day }).map dayOf)).map (fun p => p.2)).sum =
      (r :: rs).length
    rw [List.map_map]
    have hco : (dayOf ∘ fun x : Row => { x with day := some x.timestamp.day }) = dayOf := rfl
    rw [hco, sum_dailyCounts, List.length_map]

/-- Claim C7, witness: on a concrete two-row batch over one day the daily
counts sum to 2. -/
theorem c7_witness :
    ∃ t, (detect_trends [mkRow "2024-01-01" "neutral",
        mkRow "2024-01-01" "negative"]).1 = some t ∧
      (t.daily_count.map (fun p => p.2)).sum = 2 :=
  c7_daily_count_total
    [mkRow "2024-01-01" "neutral", mkRow "2024-01-01" "negative"] (by decide)

/-- Claim C8: two runs of the analysis on the same batch whose timestamps
are all present and parseable (so the "now" default never fires) produce
identical results, whatever two current times the runs observe. -/
theorem c8_identical_when_timestamps_parse (d : Deps) (n1 n2 : Timestamp)
    (batch : List RawItem)
    (h : ∀ i ∈ batch, (i.timestamp.bind d.parse).isSome = true) :
    run d n1 (RunInput.withBatch batch) = run d n2 (RunInput.withBatch batch) := by
  have horient : orient d n1 batch = orient d n2 batch := by
    unfold orient
    dsimp only
    refine List.map_congr_left (fun i hi => ?_)
    have hs := h i hi
    cases hp : i.timestamp.bind d.parse with
    | none => rw [hp] at hs; simp at hs
    | some t => rfl
  simp only [run, horient]

/-- Claim C8, witness: the concrete batch analyzed at two different
current times yields identical outputs. -/
theorem c8_witness :
    run defaultDeps { day := "2024-06-01", tod := "00:00:00" }
        (RunInput.withBatch batchC8) =
      run defaultDeps { day := "2025-01-01", tod := "12:00:00" }
        (RunInput.withBatch batchC8) :=
  c8_identical_when_timestamps_parse defaultDeps _ _ batchC8 (by decide)

/-- Claim C9: `detect_trends` mutates the frame it is given by adding a
`day` column, and `decide` serializes that same frame afterwards, so on a
non-empty run in which the trends step succeeded (and the outer body did
not fail) every record of `feedback_data` carries a `day` field beyond the
ClassifiedItem fields. -/
theorem c9_day_column_leak (d : Deps) (rows : List ORow) (h : rows ≠ [])
    (hbody : d.bodyFail = false) (htr : d.trendsFail = false) :
    ((AnalysisAgent.decide d rows).feedback_data.all
      (fun sr => sr.day.isSome)) = true := by
  cases rows with
  | nil => exact absurd rfl h
  | cons o os =>
    unfold AnalysisAgent.decide
    simp only [List.isEmpty_cons, Bool.false_eq_true, if_false, hbody, htr]
    rw [List.all_eq_true]
    intro sr hsr
    unfold dataframe_to_serializable at hsr
    obtain ⟨r, hr, rfl⟩ := List.mem_map.mp hsr
    unfold detect_trends at hr
    split at hr
    · simp_all
    · dsimp only at hr
      obtain ⟨r0, _, rfl⟩ := List.mem_map.mp hr
      rfl

/-- Claim C9, witness: on a concrete one-item batch, every serialized
feedback record has a `day` field. -/
theorem c9_witness :
    (((AnalysisAgent.decide defaultDeps
        [{ text := "a bug", timestamp := { day := "2024-01-01", tod := "08:00:00" },
           platform := some "Web" }]).feedback_data).all
      (fun sr => sr.day.isSome)) = true :=
  c9_day_column_leak defaultDeps
    [{ text := "a bug", timestamp := { day := "2024-01-01", tod := "08:00:00" },
       platform := some "Web" }] (by decide) rfl rfl

/-- Helper: a single observed day is never anomalous — its count equals
the mean, and `count > mean` fails. -/
theorem anomalousB_single (c : Nat) : anomalousB [c] c = false := by
  simp [anomalousB, intSum]

/-- Helper: when the grouped keys span exactly one distinct day, the
anomaly filter returns the empty map. -/
theorem anomalousDays_single_day (keys : List String)
    (h : (groupKeys keys).length = 1) : anomalousDays keys = [] := by
  obtain ⟨dd, hd⟩ : ∃ d, groupKeys keys = [d] := by
    match hg : groupKeys keys with
    | [] => rw [hg] at h; simp at h
    | [a] => exact ⟨a, rfl⟩
    | a :: b :: m => rw [hg] at h; simp at h
  unfold anomalousDays dailyCounts
  rw [hd]
  simp [anomalousB_single]

/-- Claim C10: the three-distinct-days minimum of `detect_anomalies` is
enforced only on the overall per-day counts; the negative-sentiment pass
runs whenever a negative row exists, even when the negative rows span
fewer than 3 distinct days — and with exactly one negative day its std is
0, its mean is that day's count, and no negative anomaly is flagged. -/
theorem c10_negative_pass_no_day_minimum (rows : List Row)
    (h3 : 3 ≤ (groupKeys (rows.map dayOf)).length)
    (hneg : rows.filter (fun r => r.sentiment == "negative") ≠ [])
    (h1 : (groupKeys ((rows.filter
        (fun r => r.sentiment == "negative")).map dayOf)).length = 1) :
    ∃ a, detect_anomalies rows = some a ∧
      a.negative_sentiment_anomalies = [] := by
  have hrows : rows.isEmpty = false := by
    cases rows with
    | nil => simp at hneg
    | cons a l => rfl
  have hne : (rows.filter (fun r => r.sentiment == "negative")).isEmpty = false := by
    cases hf : rows.filter (fun r => r.sentiment == "negative") with
    | nil => exact absurd hf hneg
    | cons a l => rfl
  unfold detect_anomalies
  simp only [hrows, Bool.false_eq_true, if_false]
  rw [if_neg (by omega)]
  refine ⟨_, rfl, ?_⟩
  dsimp only
  rw [hne]
  simp only [Bool.false_eq_true, if_false]
  exact anomalousDays_single_day _ h1

/-- Claim C10, witness: a concrete batch spanning three days with exactly
one negative row (hence one negative day) passes the guard and flags no
negative anomaly. -/
theorem c10_witness :
    ∃ a, detect_anomalies [mkRow "2024-01-01" "negative",
        mkRow "2024-01-02" "neutral", mkRow "2024-01-03" "neutral"] = some a ∧
      a.negative_sentiment_anomalies = [] :=
  c10_negative_pass_no_day_minimum
    [mkRow "2024-01-01" "negative", mkRow "2024-01-02" "neutral",
     mkRow "2024-01-03" "neutral"] (by decide) (by decide) (by decide)

/-- Claim C3, counterexample: on a batch with per-day counts
[2, 3, 2, 3, 20] the detector flags NOTHING — with μ = 6 and the pandas
sample std σ = √61.5 ≈ 7.84, the threshold μ + 2σ ≈ 21.68 exceeds 20, so
the count-20 day is NOT flagged, contrary to the claim (whose own figures
μ = 6, σ ≈ 7.5 give a threshold of 21 > 20 as well). -/
theorem c3_counterexample :
    (dailyCounts (batchC3.map dayOf)).map (fun p => p.2) = [2, 3, 2, 3, 20] ∧
    detect_anomalies batchC3 =
      some { volume_anomalies := [], negative_sentiment_anomalies := [] } := by
  constructor
  · decide
  · decide

/-- Claim C3 (amended): on every batch whose per-day counts are
[2, 3, 2, 3, 20], the anomaly detector flags NO day in
`volume_anomalies`: 20 ≤ μ + 2σ (μ = 6, sample σ = √61.5), and the days
with counts 2 and 3 are below the mean. -/
theorem c3_no_volume_anomaly (rows : List Row)
    (h : (dailyCounts (rows.map dayOf)).map (fun p => p.2) = [2, 3, 2, 3, 20]) :
    ∃ a, detect_anomalies rows = some a ∧ a.volume_anomalies = [] := by
  have hlen : (groupKeys (rows.map dayOf)).length = 5 := by
    have h5 := congrArg List.length h
    simpa [dailyCounts] using h5
  have hrows : rows.isEmpty = false := by
    cases rows with
    | nil => simp [dailyCounts, groupKeys, sortStrs, List.insertionSort] at h
    | cons a l => rfl
  have hfilter : ∀ p ∈ dailyCounts (rows.map dayOf),
      anomalousB ((dailyCounts (rows.map dayOf)).map (fun q => q.2)) p.2 = false := by
    intro p hp
    have hmem : p.2 ∈ [2, 3, 2, 3, 20] := by
      rw [← h]
      exact List.mem_map_of_mem _ hp
    rw [h]
    simp only [List.mem_cons, List.not_mem_nil, or_false] at hmem
    rcases hmem with h2 | h2 | h2 | h2 | h2 <;> rw [h2] <;> decide
  unfold detect_anomalies
  simp only [hrows, Bool.false_eq_true, if_false]
  rw [if_neg (by omega)]
  refine ⟨_, rfl, ?_⟩
  dsimp only
  unfold anomalousDays
  exact List.filter_eq_nil_iff.mpr
    (fun p hp => by simp [hfilter p hp])

/-- Claim C3, witness for the amended statement: the concrete
[2, 3, 2, 3, 20] batch yields an empty volume-anomaly map. -/
theorem c3_witness :
    ∃ a, detect_anomalies batchC3 = some a ∧ a.volume_anomalies = [] :=
  c3_no_volume_anomaly batchC3 (by decide)

end AnalysisAgent
